import Mathlib

/-!
Verification of the `tax_app` tax-calculation engine.

This file gives a shallow embedding of the Python modules
`tax_app/tax_data.py`, `tax_app/income.py`, `tax_app/deductions.py` and
`tax_app/calculator.py`.  Monetary amounts (Python floats) are modelled as
rationals, Python ints as integers, dicts keyed by filing status as total
functions on a four-element inductive type, dicts keyed by open string sets
(state codes, child counts) as association lists with `List.lookup`, and the
single in-place mutation performed by `calculate_taxes`
(`deductions.use_itemized = True`) as an explicitly returned updated record.
Definitions keep the source's names.  Theorems about the claims follow the
definitions.
-/

namespace TaxApp

/-- Filing statuses: the four string constants of `tax_data.py`.  Every
status-keyed dict in the source has exactly these four keys, so the lookup
functions below are total on this type. -/
inductive FilingStatus where
  | single
  | married_joint
  | married_separate
  | head_of_household
deriving DecidableEq

/-- A bracket entry `(upper_bound, rate)`; `none` is the open top bracket. -/
abbrev Bracket := Option ℚ × ℚ

/-- `FEDERAL_BRACKETS` from `tax_data.py`. -/
def FEDERAL_BRACKETS : FilingStatus → List Bracket
  | .single =>
      [(some 11925, 0.10), (some 48475, 0.12), (some 103350, 0.22),
       (some 197300, 0.24), (some 250525, 0.32), (some 626350, 0.35),
       (none, 0.37)]
  | .married_joint =>
      [(some 23850, 0.10), (some 96950, 0.12), (some 206700, 0.22),
       (some 394600, 0.24), (some 501050, 0.32), (some 751600, 0.35),
       (none, 0.37)]
  | .married_separate =>
      [(some 11925, 0.10), (some 48475, 0.12), (some 103350, 0.22),
       (some 197300, 0.24), (some 250525, 0.32), (some 375800, 0.35),
       (none, 0.37)]
  | .head_of_household =>
      [(some 17000, 0.10), (some 64850, 0.12), (some 103350, 0.22),
       (some 197300, 0.24), (some 250500, 0.32), (some 626350, 0.35),
       (none, 0.37)]

/-- `STANDARD_DEDUCTION` from `tax_data.py`. -/
def STANDARD_DEDUCTION : FilingStatus → ℚ
  | .single => 15000
  | .married_joint => 30000
  | .married_separate => 15000
  | .head_of_household => 22500

/-- `ADDITIONAL_STD_DEDUCTION` from `tax_data.py`. -/
def ADDITIONAL_STD_DEDUCTION : FilingStatus → ℚ
  | .single => 2000
  | .married_joint => 1600
  | .married_separate => 1600
  | .head_of_household => 2000

/-- `LTCG_BRACKETS` from `tax_data.py`. -/
def LTCG_BRACKETS : FilingStatus → List Bracket
  | .single => [(some 48350, 0.00), (some 533400, 0.15), (none, 0.20)]
  | .married_joint => [(some 96700, 0.00), (some 600050, 0.15), (none, 0.20)]
  | .married_separate => [(some 48350, 0.00), (some 300000, 0.15), (none, 0.20)]
  | .head_of_household => [(some 64750, 0.00), (some 566700, 0.15), (none, 0.20)]

def NIIT_RATE : ℚ := 0.038

def NIIT_THRESHOLDS : FilingStatus → ℚ
  | .single => 200000
  | .married_joint => 250000
  | .married_separate => 125000
  | .head_of_household => 200000

def SOCIAL_SECURITY_RATE_SELF : ℚ := 0.124
def SOCIAL_SECURITY_WAGE_BASE : ℚ := 176100
def MEDICARE_RATE_SELF : ℚ := 0.029
def MEDICARE_ADDITIONAL_RATE : ℚ := 0.009

def MEDICARE_ADDITIONAL_THRESHOLDS : FilingStatus → ℚ
  | .single => 200000
  | .married_joint => 250000
  | .married_separate => 125000
  | .head_of_household => 200000

def AMT_EXEMPTION : FilingStatus → ℚ
  | .single => 88100
  | .married_joint => 137000
  | .married_separate => 68500
  | .head_of_household => 88100

def AMT_EXEMPTION_PHASEOUT_START : FilingStatus → ℚ
  | .single => 626350
  | .married_joint => 1252700
  | .married_separate => 626350
  | .head_of_household => 626350

def AMT_RATES : List Bracket := [(some 232600, 0.26), (none, 0.28)]

def CHILD_TAX_CREDIT : ℚ := 2000
def CHILD_TAX_CREDIT_OTHER_DEPENDENT : ℚ := 500

def CTC_PHASEOUT_START : FilingStatus → ℚ
  | .single => 200000
  | .married_joint => 400000
  | .married_separate => 200000
  | .head_of_household => 200000

def CTC_PHASEOUT_RATE : ℚ := 50

/-- `EITC_MAX` from `tax_data.py`: a dict keyed by child count 0..3,
read with `.get(kids, 0)` in `compute_eitc`. -/
def EITC_MAX : List (ℤ × ℚ) := [(0, 649), (1, 4328), (2, 7152), (3, 8046)]

def EITC_INCOME_LIMITS_SINGLE : List (ℤ × ℚ) :=
  [(0, 19104), (1, 50434), (2, 57310), (3, 61555)]

def EITC_INCOME_LIMITS_JOINT : List (ℤ × ℚ) :=
  [(0, 26214), (1, 57554), (2, 64430), (3, 68675)]

def QBI_DEDUCTION_RATE : ℚ := 0.20

def QBI_INCOME_THRESHOLD : FilingStatus → ℚ
  | .single => 197300
  | .married_joint => 394600
  | .married_separate => 197300
  | .head_of_household => 197300

def SALT_CAP : ℚ := 10000

/-- `STATE_TAX_RATES` from `tax_data.py`, as an association list;
`compute_state_tax` reads it with `.get(state, 0.05)`. -/
def STATE_TAX_RATES : List (String × ℚ) :=
  [("AL", 0.050), ("AK", 0.000), ("AZ", 0.025), ("AR", 0.039), ("CA", 0.133),
   ("CO", 0.044), ("CT", 0.069), ("DE", 0.066), ("FL", 0.000), ("GA", 0.055),
   ("HI", 0.110), ("ID", 0.058), ("IL", 0.0495), ("IN", 0.0305), ("IA", 0.0380),
   ("KS", 0.057), ("KY", 0.040), ("LA", 0.0425), ("ME", 0.0715), ("MD", 0.0575),
   ("MA", 0.050), ("MI", 0.0425), ("MN", 0.0985), ("MS", 0.050), ("MO", 0.048),
   ("MT", 0.059), ("NE", 0.0584), ("NV", 0.000), ("NH", 0.000), ("NJ", 0.1075),
   ("NM", 0.059), ("NY", 0.109), ("NC", 0.045), ("ND", 0.0225), ("OH", 0.035),
   ("OK", 0.0475), ("OR", 0.099), ("PA", 0.0307), ("RI", 0.0599), ("SC", 0.064),
   ("SD", 0.000), ("TN", 0.000), ("TX", 0.000), ("UT", 0.0465), ("VT", 0.0875),
   ("VA", 0.0575), ("WA", 0.000), ("WV", 0.0512), ("WI", 0.0765), ("WY", 0.000),
   ("DC", 0.1075)]

def NO_INCOME_TAX_STATES : List String :=
  ["AK", "FL", "NV", "NH", "SD", "TN", "TX", "WA", "WY"]

/-! ### Bracket engine (`calculator.py`) -/

/-- Loop body of `compute_bracket_tax`: walks the brackets carrying
`prev_bound` and the accumulated `tax`.  An open bracket (`none`) taxes all
income above `prev_bound`; a finite bracket either finishes (income at or
below its bound) or accumulates the full bracket and continues.  An
exhausted list returns the accumulated tax, as the Python loop falls
through. -/
def bracketTaxGo (taxable_income : ℚ) : List Bracket → ℚ → ℚ → ℚ
  | [], _, tax => tax
  | (none, rate) :: _, prev_bound, tax =>
      tax + (taxable_income - prev_bound) * rate
  | (some upper_bound, rate) :: rest, prev_bound, tax =>
      if taxable_income ≤ upper_bound then
        tax + (taxable_income - prev_bound) * rate
      else
        bracketTaxGo taxable_income rest upper_bound
          (tax + (upper_bound - prev_bound) * rate)

/-- `compute_bracket_tax` from `calculator.py`: progressive bracket tax. -/
def compute_bracket_tax (taxable_income : ℚ) (brackets : List Bracket) : ℚ :=
  bracketTaxGo taxable_income brackets 0 0

/-- Loop of `get_marginal_rate`: returns the rate of the first bracket whose
bound is absent or at least the income, `none` if the loop falls through. -/
def marginalRateGo (taxable_income : ℚ) : List Bracket → Option ℚ
  | [] => none
  | (none, rate) :: _ => some rate
  | (some upper_bound, rate) :: rest =>
      if taxable_income ≤ upper_bound then some rate
      else marginalRateGo taxable_income rest

/-- `get_marginal_rate` from `calculator.py`.  The Python fallback line
`return brackets[-1][1]` is modelled by `getLast?` (it raises on an empty
list in Python; it is unreachable whenever the schedule contains an open
bracket). -/
def get_marginal_rate (taxable_income : ℚ) (brackets : List Bracket) : ℚ :=
  match marginalRateGo taxable_income brackets with
  | some rate => rate
  | none => ((brackets.getLast?).map Prod.snd).getD 0

/-- Loop of `compute_ltcg_tax`, carrying `total_income`, `remaining_gains`,
`prev_bound` and the accumulated `tax`. -/
def ltcgTaxGo : List Bracket → ℚ → ℚ → ℚ → ℚ → ℚ
  | [], _, _, _, tax => tax
  | (none, rate) :: _, _, remaining_gains, _, tax =>
      tax + remaining_gains * rate
  | (some upper_bound, rate) :: rest, total_income, remaining_gains,
      prev_bound, tax =>
      let bracket_start := max prev_bound total_income
      if upper_bound ≤ bracket_start then
        ltcgTaxGo rest total_income remaining_gains upper_bound tax
      else
        let room := upper_bound - bracket_start
        let gains_in_bracket := min remaining_gains room
        let tax' := tax + gains_in_bracket * rate
        let remaining' := remaining_gains - gains_in_bracket
        if remaining' ≤ 0 then tax'
        else ltcgTaxGo rest (total_income + gains_in_bracket) remaining'
          upper_bound tax'

/-- `compute_ltcg_tax` from `calculator.py`: long-term capital gains stacked
on top of ordinary income. -/
def compute_ltcg_tax (ltcg ordinary_taxable : ℚ) (brackets : List Bracket) : ℚ :=
  if ltcg ≤ 0 then 0
  else ltcgTaxGo brackets ordinary_taxable ltcg 0 0

/-- `compute_niit` from `calculator.py`. -/
def compute_niit (investment_income agi : ℚ) (filing_status : FilingStatus) : ℚ :=
  let threshold := NIIT_THRESHOLDS filing_status
  if agi ≤ threshold then 0
  else NIIT_RATE * min investment_income (agi - threshold)

/-- `compute_self_employment_tax` from `calculator.py`:
returns `(total, deductible_half, taxable_se)`. -/
def compute_self_employment_tax (se_net_income w2_wages : ℚ) : ℚ × ℚ × ℚ :=
  if se_net_income ≤ 0 then (0, 0, 0)
  else
    let taxable_se := se_net_income * 0.9235
    let ss_remaining := max 0 (SOCIAL_SECURITY_WAGE_BASE - w2_wages)
    let ss_tax := min taxable_se ss_remaining * SOCIAL_SECURITY_RATE_SELF
    let medicare_tax := taxable_se * MEDICARE_RATE_SELF
    let total := ss_tax + medicare_tax
    (total, total / 2, taxable_se)

/-- `compute_amt` from `calculator.py`: simplified AMT. -/
def compute_amt (agi : ℚ) (filing_status : FilingStatus) (itemized_salt : ℚ) : ℚ :=
  let amti := agi + itemized_salt
  let exemption := AMT_EXEMPTION filing_status
  let phaseout_start := AMT_EXEMPTION_PHASEOUT_START filing_status
  let exemption :=
    if phaseout_start < amti then
      max 0 (exemption - (amti - phaseout_start) * 0.25)
    else exemption
  let amt_base := max 0 (amti - exemption)
  compute_bracket_tax amt_base AMT_RATES

/-- `compute_state_tax` from `calculator.py`. -/
def compute_state_tax (taxable_income : ℚ) (state : String) : ℚ :=
  if state ∈ NO_INCOME_TAX_STATES then 0
  else taxable_income * ((STATE_TAX_RATES.lookup state).getD 0.05)

/-! ### Income model (`income.py`) -/

/-- `W2Income` dataclass. -/
structure W2Income where
  employer_name : String := ""
  gross_wages : ℚ := 0
  federal_tax_withheld : ℚ := 0
  state_tax_withheld : ℚ := 0
  social_security_wages : ℚ := 0
  social_security_tax : ℚ := 0
  medicare_wages : ℚ := 0
  medicare_tax : ℚ := 0
  retirement_contrib_401k : ℚ := 0
  hsa_employer_contrib : ℚ := 0

/-- `StockIncome` dataclass. -/
structure StockIncome where
  rsu_gsu_vesting_income : ℚ := 0
  short_term_gains : ℚ := 0
  short_term_losses : ℚ := 0
  long_term_gains : ℚ := 0
  long_term_losses : ℚ := 0
  espp_discount_income : ℚ := 0
  qualified_dividends : ℚ := 0
  ordinary_dividends : ℚ := 0

/-- `SelfEmploymentIncome` dataclass. -/
structure SelfEmploymentIncome where
  gross_income : ℚ := 0
  business_expenses : ℚ := 0
  home_office_sqft : ℚ := 0
  total_home_sqft : ℚ := 0
  home_expenses : ℚ := 0

/-- `SelfEmploymentIncome.net_income` property. -/
def SelfEmploymentIncome.net_income (se : SelfEmploymentIncome) : ℚ :=
  let home_office :=
    if 0 < se.total_home_sqft ∧ 0 < se.home_office_sqft then
      let simplified := min se.home_office_sqft 300 * 5
      let ratio := se.home_office_sqft / se.total_home_sqft
      let regular := se.home_expenses * ratio
      max simplified regular
    else 0
  max 0 (se.gross_income - se.business_expenses - home_office)

/-- `OtherIncome` dataclass. -/
structure OtherIncome where
  interest_income : ℚ := 0
  rental_income_net : ℚ := 0
  retirement_distributions : ℚ := 0
  social_security_benefits : ℚ := 0
  unemployment_income : ℚ := 0
  gambling_winnings : ℚ := 0
  alimony_received : ℚ := 0
  crypto_gains_short : ℚ := 0
  crypto_gains_long : ℚ := 0
  crypto_losses_short : ℚ := 0
  crypto_losses_long : ℚ := 0
  other_income : ℚ := 0

/-- `AllIncome` dataclass. -/
structure AllIncome where
  w2s : List W2Income := []
  stocks : StockIncome := {}
  self_employment : SelfEmploymentIncome := {}
  other : OtherIncome := {}

def AllIncome.total_w2_wages (i : AllIncome) : ℚ :=
  (i.w2s.map fun w => w.gross_wages).sum

def AllIncome.total_federal_withheld (i : AllIncome) : ℚ :=
  (i.w2s.map fun w => w.federal_tax_withheld).sum

def AllIncome.total_state_withheld (i : AllIncome) : ℚ :=
  (i.w2s.map fun w => w.state_tax_withheld).sum

def AllIncome.total_ss_tax_paid (i : AllIncome) : ℚ :=
  (i.w2s.map fun w => w.social_security_tax).sum

def AllIncome.total_medicare_tax_paid (i : AllIncome) : ℚ :=
  (i.w2s.map fun w => w.medicare_tax).sum

def AllIncome.net_short_term_gains (i : AllIncome) : ℚ :=
  (i.stocks.short_term_gains - i.stocks.short_term_losses)
    + (i.other.crypto_gains_short - i.other.crypto_losses_short)

def AllIncome.net_long_term_gains (i : AllIncome) : ℚ :=
  (i.stocks.long_term_gains - i.stocks.long_term_losses)
    + (i.other.crypto_gains_long - i.other.crypto_losses_long)

/-- `AllIncome.net_capital_gains` property: capital loss deduction limited
to 3000 per year. -/
def AllIncome.net_capital_gains (i : AllIncome) : ℚ :=
  let total := i.net_short_term_gains + i.net_long_term_gains
  if total < -3000 then -3000 else total

/-- `AllIncome.capital_loss_carryforward` property. -/
def AllIncome.capital_loss_carryforward (i : AllIncome) : ℚ :=
  let total := i.net_short_term_gains + i.net_long_term_gains
  if total < -3000 then |total| - 3000 else 0

/-- `AllIncome.total_ordinary_income` property. -/
def AllIncome.total_ordinary_income (i : AllIncome) : ℚ :=
  let ordinary :=
    i.total_w2_wages
    + i.self_employment.net_income
    + max i.net_short_term_gains 0
    + i.stocks.ordinary_dividends
    + i.stocks.espp_discount_income
    + i.other.interest_income
    + i.other.rental_income_net
    + i.other.retirement_distributions
    + i.other.unemployment_income
    + i.other.gambling_winnings
    + i.other.alimony_received
    + i.other.other_income
    + max (i.other.crypto_gains_short - i.other.crypto_losses_short) 0
  let net_total := i.net_short_term_gains + i.net_long_term_gains
  let ordinary :=
    if net_total < 0 then ordinary + max net_total (-3000) else ordinary
  max 0 ordinary

/-- `AllIncome.total_investment_income` property. -/
def AllIncome.total_investment_income (i : AllIncome) : ℚ :=
  i.stocks.ordinary_dividends
  + i.stocks.qualified_dividends
  + i.other.interest_income
  + i.other.rental_income_net
  + max (i.net_short_term_gains + i.net_long_term_gains) 0

/-- `AllIncome.total_agi_estimate` property. -/
def AllIncome.total_agi_estimate (i : AllIncome) : ℚ :=
  let ss_taxable := i.other.social_security_benefits * 0.85
  i.total_ordinary_income
  + max i.net_long_term_gains 0
  + i.stocks.qualified_dividends
  + ss_taxable

/-! ### Deductions and credits model (`deductions.py`) -/

/-- Default state code of `PersonalInfo` in `deductions.py`. -/
def stateCA : String := "CA"

/-- The `deduction_type` label for the standard-deduction path. -/
def standardLabel : String := "Standard"

/-- The `deduction_type` label for the itemized path. -/
def itemizedLabel : String := "Itemized"

/-- `AboveTheLineDeductions` dataclass. -/
structure AboveTheLineDeductions where
  traditional_ira_contribution : ℚ := 0
  hsa_contribution : ℚ := 0
  student_loan_interest : ℚ := 0
  educator_expenses : ℚ := 0
  self_employment_tax_deduction : ℚ := 0
  self_employment_health_insurance : ℚ := 0
  alimony_paid : ℚ := 0
  moving_expenses_military : ℚ := 0

/-- `AboveTheLineDeductions.total` property. -/
def AboveTheLineDeductions.total (a : AboveTheLineDeductions) : ℚ :=
  a.traditional_ira_contribution
  + a.hsa_contribution
  + a.student_loan_interest
  + a.educator_expenses
  + a.self_employment_tax_deduction
  + a.self_employment_health_insurance
  + a.alimony_paid
  + a.moving_expenses_military

/-- `ItemizedDeductions` dataclass. -/
structure ItemizedDeductions where
  state_local_income_tax : ℚ := 0
  property_tax : ℚ := 0
  mortgage_interest : ℚ := 0
  mortgage_insurance_premiums : ℚ := 0
  charitable_cash : ℚ := 0
  charitable_non_cash : ℚ := 0
  medical_expenses : ℚ := 0
  casualty_losses_disaster : ℚ := 0

/-- `ItemizedDeductions.total(agi)`: SALT capped, medical floored by
7.5 percent of AGI. -/
def ItemizedDeductions.total (it : ItemizedDeductions) (agi : ℚ) : ℚ :=
  let salt := min (it.state_local_income_tax + it.property_tax) SALT_CAP
  let medical := max 0 (it.medical_expenses - 0.075 * agi)
  salt
  + it.mortgage_interest
  + it.mortgage_insurance_premiums
  + it.charitable_cash
  + it.charitable_non_cash
  + medical
  + it.casualty_losses_disaster

/-- `TaxCredits` dataclass. -/
structure TaxCredits where
  num_children_under_17 : ℤ := 0
  num_other_dependents : ℤ := 0
  child_care_expenses : ℚ := 0
  num_children_for_care : ℤ := 0
  education_expenses : ℚ := 0
  years_of_aotc_claimed : ℤ := 0
  energy_efficient_improvements : ℚ := 0
  ev_purchase : Bool := false
  ev_purchase_amount : ℚ := 0
  residential_solar : ℚ := 0
  adoption_expenses : ℚ := 0
  savers_credit_eligible : Bool := false
  retirement_contributions_for_savers : ℚ := 0
  foreign_tax_paid : ℚ := 0
  estimated_taxes_paid : ℚ := 0

/-- `PersonalInfo` dataclass. -/
structure PersonalInfo where
  filing_status : FilingStatus := .single
  age : ℤ := 30
  spouse_age : ℤ := 0
  is_blind : Bool := false
  spouse_is_blind : Bool := false
  state : String := stateCA
  is_educator : Bool := false
  has_employer_retirement_plan : Bool := false

/-- `AllDeductions` dataclass; `use_itemized` is the flag
`calculate_taxes` sets after the standard-vs-itemized comparison. -/
structure AllDeductions where
  personal : PersonalInfo := {}
  above_the_line : AboveTheLineDeductions := {}
  itemized : ItemizedDeductions := {}
  credits : TaxCredits := {}
  use_itemized : Bool := false

/-- `compute_standard_deduction` from `deductions.py`. -/
def compute_standard_deduction (personal : PersonalInfo) : ℚ :=
  let base := STANDARD_DEDUCTION personal.filing_status
  let add_amount := ADDITIONAL_STD_DEDUCTION personal.filing_status
  let additional :=
    (if 65 ≤ personal.age then add_amount else 0)
    + (if personal.is_blind then add_amount else 0)
    + (if personal.filing_status = .married_joint
          ∨ personal.filing_status = .married_separate then
        (if 65 ≤ personal.spouse_age then add_amount else 0)
        + (if personal.spouse_is_blind then add_amount else 0)
      else 0)
  base + additional

/-- `compute_child_tax_credit` from `deductions.py`; the Python
`excess // 1000` is float floor division, modelled by the rational floor. -/
def compute_child_tax_credit (credits : TaxCredits)
    (filing_status : FilingStatus) (agi : ℚ) : ℚ :=
  let base : ℚ :=
    (credits.num_children_under_17 : ℚ) * CHILD_TAX_CREDIT
    + (credits.num_other_dependents : ℚ) * CHILD_TAX_CREDIT_OTHER_DEPENDENT
  if base = 0 then 0
  else
    let threshold := CTC_PHASEOUT_START filing_status
    if threshold < agi then
      let excess := agi - threshold
      let reduction : ℚ := (⌊excess / 1000⌋ : ℤ) * CTC_PHASEOUT_RATE
      max 0 (base - reduction)
    else base

/-- `compute_child_care_credit` from `deductions.py`. -/
def compute_child_care_credit (credits : TaxCredits) (agi : ℚ) : ℚ :=
  if credits.child_care_expenses ≤ 0 ∨ credits.num_children_for_care ≤ 0 then 0
  else
    let max_expenses : ℚ :=
      if credits.num_children_for_care = 1 then 3000 else 6000
    let eligible := min credits.child_care_expenses max_expenses
    let rate : ℚ :=
      if agi ≤ 15000 then 0.35
      else if 43000 ≤ agi then 0.20
      else max 0.20 (0.35 - (⌊(agi - 15000) / 2000⌋ : ℤ) * 0.01)
    eligible * rate

/-- `compute_education_credit` from `deductions.py`. -/
def compute_education_credit (credits : TaxCredits) (agi : ℚ)
    (filing_status : FilingStatus) : ℚ :=
  if credits.education_expenses ≤ 0 then 0
  else if credits.years_of_aotc_claimed < 4 then
    let aotc := min credits.education_expenses 2000
      + 0.25 * max 0 (min (credits.education_expenses - 2000) 2000)
    let phase : ℚ × ℚ :=
      if filing_status = .married_joint then (160000, 180000)
      else (80000, 90000)
    if phase.2 < agi then 0
    else if phase.1 < agi then
      aotc * (1 - (agi - phase.1) / (phase.2 - phase.1))
    else aotc
  else
    let llc := 0.20 * min credits.education_expenses 10000
    let phase : ℚ × ℚ :=
      if filing_status = .married_joint then (160000, 180000)
      else (80000, 90000)
    if phase.2 < agi then 0
    else if phase.1 < agi then
      llc * (1 - (agi - phase.1) / (phase.2 - phase.1))
    else llc

/-- `compute_energy_credits` from `deductions.py`. -/
def compute_energy_credits (credits : TaxCredits) : ℚ :=
  (if 0 < credits.energy_efficient_improvements then
      min (credits.energy_efficient_improvements * 0.30) 3200
    else 0)
  + (if credits.ev_purchase then
      min 7500 (credits.ev_purchase_amount * 0.10)
    else 0)
  + (if 0 < credits.residential_solar then
      credits.residential_solar * 0.30
    else 0)

/-- `compute_savers_credit` from `deductions.py`. -/
def compute_savers_credit (credits : TaxCredits) (agi : ℚ)
    (filing_status : FilingStatus) : ℚ :=
  if !credits.savers_credit_eligible then 0
  else
    let contrib := min credits.retirement_contributions_for_savers 2000
    if filing_status = .married_joint then
      if agi ≤ 47500 then contrib * 0.50
      else if agi ≤ 51000 then contrib * 0.20
      else if agi ≤ 78750 then contrib * 0.10
      else 0
    else if filing_status = .head_of_household then
      if agi ≤ 35625 then contrib * 0.50
      else if agi ≤ 38250 then contrib * 0.20
      else if agi ≤ 59062 then contrib * 0.10
      else 0
    else
      if agi ≤ 23750 then contrib * 0.50
      else if agi ≤ 25500 then contrib * 0.20
      else if agi ≤ 39375 then contrib * 0.10
      else 0

/-- `compute_eitc` from `deductions.py`.  Note `kids = min(num_children, 3)`
clamps only from above; both dict reads use a default of 0. -/
def compute_eitc (filing_status : FilingStatus) (agi : ℚ)
    (num_children : ℤ) : ℚ :=
  let kids := min num_children 3
  let limits :=
    if filing_status = .married_joint then EITC_INCOME_LIMITS_JOINT
    else EITC_INCOME_LIMITS_SINGLE
  if (limits.lookup kids).getD 0 < agi then 0
  else (EITC_MAX.lookup kids).getD 0

/-- `compute_qbi_deduction` from `deductions.py`. -/
def compute_qbi_deduction (se_net_income taxable_income : ℚ)
    (filing_status : FilingStatus) : ℚ :=
  if se_net_income ≤ 0 then 0
  else
    let qbi_deduction := se_net_income * QBI_DEDUCTION_RATE
    let threshold := QBI_INCOME_THRESHOLD filing_status
    if taxable_income ≤ threshold then
      min qbi_deduction (taxable_income * QBI_DEDUCTION_RATE)
    else 0

/-! ### Orchestrator (`calculator.py`) -/

/-- `TaxResult`: the container populated by `calculate_taxes`.
`total_federal_tax` holds its final (post-credit) value. -/
structure TaxResult where
  gross_income : ℚ := 0
  agi : ℚ := 0
  taxable_ordinary_income : ℚ := 0
  above_the_line_deductions : ℚ := 0
  standard_deduction : ℚ := 0
  itemized_deduction : ℚ := 0
  deduction_used : ℚ := 0
  deduction_type : String := standardLabel
  qbi_deduction : ℚ := 0
  federal_income_tax : ℚ := 0
  ltcg_tax : ℚ := 0
  niit : ℚ := 0
  amt_tentative : ℚ := 0
  employee_ss_tax : ℚ := 0
  employee_medicare_tax : ℚ := 0
  additional_medicare_tax : ℚ := 0
  self_employment_tax : ℚ := 0
  child_tax_credit : ℚ := 0
  child_care_credit : ℚ := 0
  education_credit : ℚ := 0
  energy_credits : ℚ := 0
  savers_credit : ℚ := 0
  eitc : ℚ := 0
  foreign_tax_credit : ℚ := 0
  total_credits : ℚ := 0
  state_tax_estimate : ℚ := 0
  federal_withheld : ℚ := 0
  state_withheld : ℚ := 0
  ss_tax_withheld : ℚ := 0
  medicare_tax_withheld : ℚ := 0
  estimated_payments : ℚ := 0
  total_federal_tax : ℚ := 0
  total_fica : ℚ := 0
  total_tax_liability : ℚ := 0
  total_payments : ℚ := 0
  balance_due : ℚ := 0
  effective_rate : ℚ := 0
  marginal_rate : ℚ := 0
  capital_loss_carryforward : ℚ := 0

/-- `calculate_taxes` from `calculator.py`.  The single in-place mutation of
the source (`deductions.use_itemized = True` on the itemized branch) is
modelled by returning the updated deductions record as the second component;
the subsequent read `if deductions.use_itemized` is taken from that updated
record, exactly as in the source.  The income record is never written. -/
def calculate_taxes (income : AllIncome) (deductions : AllDeductions) :
    TaxResult × AllDeductions :=
  let fs := deductions.personal.filing_status
  let brackets := FEDERAL_BRACKETS fs
  let gross_income := income.total_agi_estimate
  let above_the_line_deductions := deductions.above_the_line.total
  let agi := max 0 (gross_income - above_the_line_deductions)
  let standard_deduction := compute_standard_deduction deductions.personal
  let itemized_deduction := deductions.itemized.total agi
  let deductions' :=
    if standard_deduction < itemized_deduction then
      { deductions with use_itemized := true }
    else deductions
  let deduction_used :=
    if standard_deduction < itemized_deduction then itemized_deduction
    else standard_deduction
  let deduction_type :=
    if standard_deduction < itemized_deduction then itemizedLabel
    else standardLabel
  let se_net := income.self_employment.net_income
  let preliminary_taxable := max 0 (agi - deduction_used)
  let qbi_deduction := compute_qbi_deduction se_net preliminary_taxable fs
  let ltcg_and_qual_div :=
    max 0 income.net_long_term_gains + income.stocks.qualified_dividends
  let total_taxable := max 0 (agi - deduction_used - qbi_deduction)
  let taxable_ordinary_income := max 0 (total_taxable - ltcg_and_qual_div)
  let federal_income_tax := compute_bracket_tax taxable_ordinary_income brackets
  let marginal_rate := get_marginal_rate taxable_ordinary_income brackets
  let ltcg_tax :=
    compute_ltcg_tax ltcg_and_qual_div taxable_ordinary_income (LTCG_BRACKETS fs)
  let niit := compute_niit income.total_investment_income agi fs
  let salt_addback :=
    if deductions'.use_itemized then
      min (deductions.itemized.state_local_income_tax
            + deductions.itemized.property_tax) 10000
    else 0
  let amt_tentative := compute_amt agi fs salt_addback
  let regular_tax := federal_income_tax + ltcg_tax
  let amt_additional := max 0 (amt_tentative - regular_tax)
  let pre_credit_federal_tax := federal_income_tax + ltcg_tax + niit + amt_additional
  let employee_ss_tax := income.total_ss_tax_paid
  let employee_medicare_tax := income.total_medicare_tax_paid
  let medicare_threshold := MEDICARE_ADDITIONAL_THRESHOLDS fs
  let total_wages := income.total_w2_wages + se_net
  let additional_medicare_tax :=
    if medicare_threshold < total_wages then
      (total_wages - medicare_threshold) * MEDICARE_ADDITIONAL_RATE
    else 0
  let se_parts := compute_self_employment_tax se_net income.total_w2_wages
  let self_employment_tax := se_parts.1
  let total_fica := employee_ss_tax + employee_medicare_tax
    + additional_medicare_tax + self_employment_tax
  let child_tax_credit := compute_child_tax_credit deductions.credits fs agi
  let child_care_credit := compute_child_care_credit deductions.credits agi
  let education_credit := compute_education_credit deductions.credits agi fs
  let energy_credits := compute_energy_credits deductions.credits
  let savers_credit := compute_savers_credit deductions.credits agi fs
  let eitc := compute_eitc fs agi deductions.credits.num_children_under_17
  let foreign_tax_credit := deductions.credits.foreign_tax_paid
  let total_credits := child_tax_credit + child_care_credit + education_credit
    + energy_credits + savers_credit + eitc + foreign_tax_credit
  let total_federal_tax := max 0 (pre_credit_federal_tax - total_credits)
  let state_tax_estimate :=
    compute_state_tax total_taxable deductions.personal.state
  let capital_loss_carryforward := income.capital_loss_carryforward
  let total_tax_liability := total_federal_tax + total_fica + state_tax_estimate
  let federal_withheld := income.total_federal_withheld
  let state_withheld := income.total_state_withheld
  let ss_tax_withheld := income.total_ss_tax_paid
  let medicare_tax_withheld := income.total_medicare_tax_paid
  let estimated_payments := deductions.credits.estimated_taxes_paid
  let total_payments := federal_withheld + state_withheld
    + ss_tax_withheld + medicare_tax_withheld + estimated_payments
  let balance_due := total_tax_liability - total_payments
  let effective_rate :=
    if 0 < gross_income then total_tax_liability / gross_income else 0
  (⟨gross_income, agi, taxable_ordinary_income, above_the_line_deductions,
    standard_deduction, itemized_deduction, deduction_used, deduction_type,
    qbi_deduction, federal_income_tax, ltcg_tax, niit, amt_tentative,
    employee_ss_tax, employee_medicare_tax, additional_medicare_tax,
    self_employment_tax, child_tax_credit, child_care_credit,
    education_credit, energy_credits, savers_credit, eitc,
    foreign_tax_credit, total_credits, state_tax_estimate,
    federal_withheld, state_withheld, ss_tax_withheld,
    medicare_tax_withheld, estimated_payments, total_federal_tax,
    total_fica, total_tax_liability, total_payments, balance_due,
    effective_rate, marginal_rate, capital_loss_carryforward⟩,
   deductions')

/-! ### Concrete records used by witnesses and counterexamples -/

/-- Income with only a 10000 short-term stock loss. -/
def lossIncome10k : AllIncome := { stocks := { short_term_losses := 10000 } }

/-- Income with only a 2000 short-term stock loss. -/
def lossIncome2k : AllIncome := { stocks := { short_term_losses := 2000 } }

/-- A single W-2 with 200000 of wages and nothing else. -/
def highWageIncome : AllIncome := { w2s := [{ gross_wages := 200000 }] }

/-- Deductions whose only itemized entry is 5000 of state income tax, with a
caller-supplied `use_itemized = true` flag. -/
def saltOnlyDeductionsFlagged : AllDeductions :=
  { itemized := { state_local_income_tax := 5000 }, use_itemized := true }

/-- Deductions whose only itemized entry is 5000 of state income tax, with
the default `use_itemized = false` flag. -/
def saltOnlyDeductions : AllDeductions :=
  { itemized := { state_local_income_tax := 5000 } }

/-- An empty income record. -/
def tieIncome : AllIncome := {}

/-- Deductions whose itemized total (15000 of cash charity at AGI 0) exactly
equals the single filer's standard deduction. -/
def tieDeductions : AllDeductions := { itemized := { charitable_cash := 15000 } }

def stateTX : String := "TX"

def stateZZ : String := "ZZ"

/-! ### Schedule well-formedness predicates -/

/-- The finite bounds of a schedule are weakly increasing starting from
`lb` (the walk of `compute_bracket_tax` stops at an open bracket, so entries
after one are unconstrained). -/
def BoundsAscFrom (lb : ℚ) : List Bracket → Prop
  | [] => True
  | (none, _) :: _ => True
  | (some b, _) :: rest => lb ≤ b ∧ BoundsAscFrom b rest

/-- The predicate of the `get_marginal_rate` loop: the bracket's upper bound
is absent or at least the income. -/
def marginalPred (income : ℚ) (p : Bracket) : Bool :=
  p.1.all fun b => decide (income ≤ b)

/-! ### Bracket engine lemmas -/

/-- The accumulated tax never decreases along the bracket walk when rates
are non-negative and bounds ascend. -/
lemma le_bracketTaxGo (y : ℚ) (bs : List Bracket) :
    ∀ prev t : ℚ, prev ≤ y → BoundsAscFrom prev bs → (∀ p ∈ bs, 0 ≤ p.2) →
      t ≤ bracketTaxGo y bs prev t := by
  induction bs with
  | nil => intro prev t _ _ _; simp [bracketTaxGo]
  | cons p rest ih =>
    intro prev t hprev hasc hr
    obtain ⟨ob, r⟩ := p
    have hr0 : 0 ≤ r := hr _ (List.mem_cons_self _ _)
    cases ob with
    | none =>
      simp only [bracketTaxGo]
      nlinarith
    | some b =>
      obtain ⟨hpb, hasc'⟩ := hasc
      simp only [bracketTaxGo]
      by_cases hy : y ≤ b
      · rw [if_pos hy]; nlinarith
      · rw [if_neg hy]
        have hby : b ≤ y := le_of_not_le hy
        have h2 := ih b (t + (b - prev) * r) hby hasc'
          (fun q hq => hr q (List.mem_cons_of_mem _ hq))
        nlinarith

/-- Monotonicity of the bracket walk in the income argument. -/
lemma bracketTaxGo_mono (x y : ℚ) (hxy : x ≤ y) (bs : List Bracket) :
    ∀ prev t : ℚ, BoundsAscFrom prev bs → (∀ p ∈ bs, 0 ≤ p.2) →
      bracketTaxGo x bs prev t ≤ bracketTaxGo y bs prev t := by
  induction bs with
  | nil => intro prev t _ _; simp [bracketTaxGo]
  | cons p rest ih =>
    intro prev t hasc hr
    obtain ⟨ob, r⟩ := p
    have hr0 : 0 ≤ r := hr _ (List.mem_cons_self _ _)
    cases ob with
    | none =>
      simp only [bracketTaxGo]
      nlinarith
    | some b =>
      obtain ⟨hpb, hasc'⟩ := hasc
      simp only [bracketTaxGo]
      by_cases hy : y ≤ b
      · rw [if_pos (le_trans hxy hy), if_pos hy]
        nlinarith
      · rw [if_neg hy]
        have hby : b ≤ y := le_of_not_le hy
        by_cases hx : x ≤ b
        · rw [if_pos hx]
          have h2 := le_bracketTaxGo y rest b (t + (b - prev) * r) hby hasc'
            (fun q hq => hr q (List.mem_cons_of_mem _ hq))
          nlinarith
        · rw [if_neg hx]
          exact ih b (t + (b - prev) * r) hasc'
            (fun q hq => hr q (List.mem_cons_of_mem _ hq))

/-- The walk gains at most `R * (y - prev)` over its accumulator when every
rate is at most `R`. -/
lemma bracketTaxGo_sub_le (R y : ℚ) (hR : 0 ≤ R) (bs : List Bracket) :
    ∀ prev t : ℚ, prev ≤ y → BoundsAscFrom prev bs → (∀ p ∈ bs, p.2 ≤ R) →
      bracketTaxGo y bs prev t - t ≤ R * (y - prev) := by
  induction bs with
  | nil =>
    intro prev t hprev _ _
    simp only [bracketTaxGo]
    nlinarith
  | cons p rest ih =>
    intro prev t hprev hasc hr
    obtain ⟨ob, r⟩ := p
    have hrR : r ≤ R := hr _ (List.mem_cons_self _ _)
    cases ob with
    | none =>
      simp only [bracketTaxGo]
      nlinarith [mul_le_mul_of_nonneg_left hrR (sub_nonneg.mpr hprev)]
    | some b =>
      obtain ⟨hpb, hasc'⟩ := hasc
      simp only [bracketTaxGo]
      by_cases hy : y ≤ b
      · rw [if_pos hy]
        nlinarith [mul_le_mul_of_nonneg_left hrR (sub_nonneg.mpr hprev)]
      · rw [if_neg hy]
        have hby : b ≤ y := le_of_not_le hy
        have h2 := ih b (t + (b - prev) * r) hby hasc'
          (fun q hq => hr q (List.mem_cons_of_mem _ hq))
        nlinarith [mul_le_mul_of_nonneg_left hrR (sub_nonneg.mpr hpb)]

/-- Lipschitz bound for the bracket walk: the tax difference between two
incomes is at most `R` times the income difference. -/
lemma bracketTaxGo_lipschitz (R x y : ℚ) (hxy : x ≤ y) (hR : 0 ≤ R)
    (bs : List Bracket) :
    ∀ prev t : ℚ, BoundsAscFrom prev bs → (∀ p ∈ bs, p.2 ≤ R) →
      bracketTaxGo y bs prev t - bracketTaxGo x bs prev t ≤ R * (y - x) := by
  induction bs with
  | nil =>
    intro prev t _ _
    simp only [bracketTaxGo]
    nlinarith
  | cons p rest ih =>
    intro prev t hasc hr
    obtain ⟨ob, r⟩ := p
    have hrR : r ≤ R := hr _ (List.mem_cons_self _ _)
    cases ob with
    | none =>
      simp only [bracketTaxGo]
      nlinarith [mul_le_mul_of_nonneg_left hrR (sub_nonneg.mpr hxy)]
    | some b =>
      obtain ⟨hpb, hasc'⟩ := hasc
      simp only [bracketTaxGo]
      by_cases hy : y ≤ b
      · rw [if_pos (le_trans hxy hy), if_pos hy]
        nlinarith [mul_le_mul_of_nonneg_left hrR (sub_nonneg.mpr hxy)]
      · rw [if_neg hy]
        have hby : b ≤ y := le_of_not_le hy
        by_cases hx : x ≤ b
        · rw [if_pos hx]
          have h2 := bracketTaxGo_sub_le R y hR rest b (t + (b - prev) * r)
            hby hasc' (fun q hq => hr q (List.mem_cons_of_mem _ hq))
          nlinarith [mul_le_mul_of_nonneg_left hrR (sub_nonneg.mpr hx)]
        · rw [if_neg hx]
          exact ih b (t + (b - prev) * r) hasc'
            (fun q hq => hr q (List.mem_cons_of_mem _ hq))

/-- The `get_marginal_rate` loop on a schedule ending in an open bracket
always returns inside the loop, and returns the first matching rate. -/
lemma marginalRateGo_append_open (income rTop : ℚ) (front : List Bracket) :
    marginalRateGo income (front ++ [(none, rTop)])
      = some (((front.find? (marginalPred income)).map Prod.snd).getD rTop) := by
  induction front with
  | nil => simp [marginalRateGo]
  | cons p rest ih =>
    obtain ⟨ob, r⟩ := p
    cases ob with
    | none => simp [marginalRateGo, List.find?, marginalPred, Option.all]
    | some b =>
      by_cases h : income ≤ b
      · simp [marginalRateGo, List.find?, marginalPred, Option.all, h]
      · simp [marginalRateGo, List.find?, marginalPred, Option.all, h, ih]

/-- The `compute_ltcg_tax` loop skips every finite bracket whose bound is at
or below the ordinary income and taxes all remaining gains at the open
bracket's rate. -/
lemma ltcgTaxGo_all_top (ordinary g rTop : ℚ) (front : List Bracket) :
    ∀ prev tax : ℚ, (∀ p ∈ front, ∃ b, p.1 = some b ∧ b ≤ ordinary) →
      ltcgTaxGo (front ++ [(none, rTop)]) ordinary g prev tax = tax + g * rTop := by
  induction front with
  | nil => intro prev tax _; simp [ltcgTaxGo]
  | cons p rest ih =>
    intro prev tax hb
    obtain ⟨ob, r⟩ := p
    obtain ⟨b, hob, hble⟩ := hb (ob, r) (List.mem_cons_self _ _)
    have hob' : ob = some b := hob
    subst hob'
    simp only [List.cons_append, ltcgTaxGo]
    rw [if_pos (le_max_of_le_right hble)]
    exact ih b tax (fun q hq => hb q (List.mem_cons_of_mem _ hq))

/-! ### Projection lemmas for `calculate_taxes` -/

lemma calculate_taxes_agi (i : AllIncome) (d : AllDeductions) :
    (calculate_taxes i d).1.agi
      = max 0 (i.total_agi_estimate - d.above_the_line.total) := rfl

lemma calculate_taxes_std (i : AllIncome) (d : AllDeductions) :
    (calculate_taxes i d).1.standard_deduction
      = compute_standard_deduction d.personal := rfl

lemma calculate_taxes_item (i : AllIncome) (d : AllDeductions) :
    (calculate_taxes i d).1.itemized_deduction
      = d.itemized.total (max 0 (i.total_agi_estimate - d.above_the_line.total)) := rfl

lemma calculate_taxes_dedtype (i : AllIncome) (d : AllDeductions) :
    (calculate_taxes i d).1.deduction_type
      = if compute_standard_deduction d.personal
            < d.itemized.total (max 0 (i.total_agi_estimate - d.above_the_line.total))
        then itemizedLabel else standardLabel := rfl

lemma calculate_taxes_dedused (i : AllIncome) (d : AllDeductions) :
    (calculate_taxes i d).1.deduction_used
      = if compute_standard_deduction d.personal
            < d.itemized.total (max 0 (i.total_agi_estimate - d.above_the_line.total))
        then d.itemized.total (max 0 (i.total_agi_estimate - d.above_the_line.total))
        else compute_standard_deduction d.personal := rfl

lemma calculate_taxes_snd (i : AllIncome) (d : AllDeductions) :
    (calculate_taxes i d).2
      = if compute_standard_deduction d.personal
            < d.itemized.total (max 0 (i.total_agi_estimate - d.above_the_line.total))
        then { d with use_itemized := true } else d := rfl

lemma calculate_taxes_amt (i : AllIncome) (d : AllDeductions) :
    (calculate_taxes i d).1.amt_tentative
      = compute_amt (max 0 (i.total_agi_estimate - d.above_the_line.total))
          d.personal.filing_status
          (if (if compute_standard_deduction d.personal
                    < d.itemized.total (max 0 (i.total_agi_estimate - d.above_the_line.total))
                then { d with use_itemized := true } else d).use_itemized
           then min (d.itemized.state_local_income_tax + d.itemized.property_tax) 10000
           else 0) := rfl

/-- The two deduction-type labels differ. -/
lemma itemizedLabel_ne_standardLabel : itemizedLabel ≠ standardLabel := by decide

/-- A negative key is absent from all three EITC tables. -/
lemma eitc_lookup_neg (n : ℤ) (hn : n < 0) :
    EITC_MAX.lookup n = none
    ∧ EITC_INCOME_LIMITS_SINGLE.lookup n = none
    ∧ EITC_INCOME_LIMITS_JOINT.lookup n = none := by
  have h0 : (n == (0:ℤ)) = false := beq_eq_false_iff_ne.mpr (by omega)
  have h1 : (n == (1:ℤ)) = false := beq_eq_false_iff_ne.mpr (by omega)
  have h2 : (n == (2:ℤ)) = false := beq_eq_false_iff_ne.mpr (by omega)
  have h3 : (n == (3:ℤ)) = false := beq_eq_false_iff_ne.mpr (by omega)
  refine ⟨?_, ?_, ?_⟩ <;>
    simp [EITC_MAX, EITC_INCOME_LIMITS_SINGLE, EITC_INCOME_LIMITS_JOINT,
      List.lookup, h0, h1, h2, h3]

/-! ### Claim theorems -/

/-- Claim C1: for any income record whose combined net short-term plus
long-term capital result is a loss of magnitude `L`, if `L > 3000` then
`net_capital_gains` is exactly `-3000` and the carryforward is `L - 3000`;
if `L ≤ 3000` the loss is fully applied (`net_capital_gains = -L`) and the
carryforward is `0`. -/
theorem net_capital_gains_loss_limitation (i : AllIncome) (L : ℚ)
    (hL : i.net_short_term_gains + i.net_long_term_gains = -L) :
    (3000 < L →
      i.net_capital_gains = -3000 ∧ i.capital_loss_carryforward = L - 3000)
    ∧ (L ≤ 3000 →
      i.net_capital_gains = -L ∧ i.capital_loss_carryforward = 0) := by
  constructor
  · intro h3
    have hlt : i.net_short_term_gains + i.net_long_term_gains < -3000 := by
      rw [hL]; linarith
    refine ⟨?_, ?_⟩
    · simp only [AllIncome.net_capital_gains]
      rw [if_pos hlt]
    · simp only [AllIncome.capital_loss_carryforward]
      rw [if_pos hlt, hL, abs_neg, abs_of_nonneg (by linarith : (0:ℚ) ≤ L)]
  · intro h3
    have hge : ¬ (i.net_short_term_gains + i.net_long_term_gains < -3000) := by
      rw [hL]; linarith
    refine ⟨?_, ?_⟩
    · simp only [AllIncome.net_capital_gains]
      rw [if_neg hge, hL]
    · simp only [AllIncome.capital_loss_carryforward]
      rw [if_neg hge]

/-- Witness for C1 at the spec's two examples: a 10000 loss gives
`net_capital_gains = -3000` with carryforward `7000`; a 2000 loss is fully
applied with carryforward `0`. -/
theorem net_capital_gains_loss_limitation_witness :
    lossIncome10k.net_capital_gains = -3000
    ∧ lossIncome10k.capital_loss_carryforward = 7000
    ∧ lossIncome2k.net_capital_gains = -2000
    ∧ lossIncome2k.capital_loss_carryforward = 0 := by
  have h1 := (net_capital_gains_loss_limitation lossIncome10k 10000
    (by norm_num [AllIncome.net_short_term_gains, AllIncome.net_long_term_gains,
      lossIncome10k])).1 (by norm_num)
  have h2 := (net_capital_gains_loss_limitation lossIncome2k 2000
    (by norm_num [AllIncome.net_short_term_gains, AllIncome.net_long_term_gains,
      lossIncome2k])).2 (by norm_num)
  refine ⟨h1.1, ?_, ?_, h2.2⟩
  · rw [h1.2]; norm_num
  · rw [h2.1]

/-- Claim C3: `compute_ltcg_tax` returns `0` for non-positive gains, and
when the ordinary taxable income is at or above every finite bracket bound
of a schedule ending in an open bracket, all gains are taxed at the open
top bracket's rate (each filled bracket contributes zero room and is
skipped). -/
theorem compute_ltcg_tax_contract (brackets front : List Bracket)
    (rTop g ordinary : ℚ) :
    (g ≤ 0 → compute_ltcg_tax g ordinary brackets = 0)
    ∧ (brackets = front ++ [(none, rTop)] →
       (∀ p ∈ front, ∃ b, p.1 = some b ∧ b ≤ ordinary) →
       0 < g → compute_ltcg_tax g ordinary brackets = g * rTop) := by
  constructor
  · intro hg
    simp [compute_ltcg_tax, hg]
  · intro hb hfront hg
    subst hb
    simp only [compute_ltcg_tax]
    rw [if_neg (not_le.mpr hg), ltcgTaxGo_all_top ordinary g rTop front 0 0 hfront]
    ring

/-- Witness for C3: negative gains give `0`; with ordinary income 600000
above both finite single-filer LTCG bounds, 1000 of gains are all taxed at
the 20 percent top rate. -/
theorem compute_ltcg_tax_contract_witness :
    compute_ltcg_tax (-5) 100 (LTCG_BRACKETS FilingStatus.single) = 0
    ∧ compute_ltcg_tax 1000 600000 (LTCG_BRACKETS FilingStatus.single) = 200 := by
  constructor
  · exact (compute_ltcg_tax_contract (LTCG_BRACKETS FilingStatus.single)
      [] 0 (-5) 100).1 (by norm_num)
  · have h := (compute_ltcg_tax_contract (LTCG_BRACKETS FilingStatus.single)
      [(some 48350, 0.00), (some 533400, 0.15)] 0.20 1000 600000).2 rfl
      (by
        intro p hp
        simp only [List.mem_cons, List.not_mem_nil, or_false] at hp
        rcases hp with rfl | rfl
        · exact ⟨48350, rfl, by norm_num⟩
        · exact ⟨533400, rfl, by norm_num⟩)
      (by norm_num)
    rw [h]; norm_num

/-- Counterexample to claim C4 as stated: at income `-100` the single-filer
federal schedule gives `-100 * 0.10 = -10`, not `0`. -/
theorem compute_bracket_tax_negative_cex :
    compute_bracket_tax (-100) (FEDERAL_BRACKETS FilingStatus.single) = -10
    ∧ compute_bracket_tax (-100) (FEDERAL_BRACKETS FilingStatus.single) ≠ 0 := by
  have h : compute_bracket_tax (-100) (FEDERAL_BRACKETS FilingStatus.single) = -10 := by
    norm_num [compute_bracket_tax, bracketTaxGo, FEDERAL_BRACKETS]
  exact ⟨h, by rw [h]; norm_num⟩

/-- Amended claim C4: for income at most `0` and a schedule whose first
bracket is open or has a non-negative bound, `compute_bracket_tax` returns
income times the first bracket's rate; this is `0` at income `0` but is
negative for negative income and a positive first rate. -/
theorem compute_bracket_tax_nonpos (income : ℚ) (brackets rest : List Bracket)
    (p : Bracket) (hb : brackets = p :: rest) (hinc : income ≤ 0)
    (hp : p.1 = none ∨ ∃ b, p.1 = some b ∧ 0 ≤ b) :
    compute_bracket_tax income brackets = income * p.2 := by
  subst hb
  obtain ⟨ob, r⟩ := p
  cases ob with
  | none =>
    simp only [compute_bracket_tax, bracketTaxGo]
    ring
  | some b =>
    rcases hp with hnone | ⟨b', hsome, hb0⟩
    · exact absurd hnone (by simp)
    · have hbb : b = b' := by simpa using hsome
      subst hbb
      simp only [compute_bracket_tax, bracketTaxGo]
      rw [if_pos (le_trans hinc hb0)]
      ring

/-- Witness for the amended C4: income `-100` gives `-10`; income `0`
gives `0`. -/
theorem compute_bracket_tax_nonpos_witness :
    compute_bracket_tax (-100) (FEDERAL_BRACKETS FilingStatus.single) = -100 * 0.10
    ∧ compute_bracket_tax 0 (FEDERAL_BRACKETS FilingStatus.single) = 0 * 0.10 := by
  constructor
  · exact compute_bracket_tax_nonpos (-100) (FEDERAL_BRACKETS FilingStatus.single)
      _ (some 11925, 0.10) rfl (by norm_num) (Or.inr ⟨11925, rfl, by norm_num⟩)
  · exact compute_bracket_tax_nonpos 0 (FEDERAL_BRACKETS FilingStatus.single)
      _ (some 11925, 0.10) rfl le_rfl (Or.inr ⟨11925, rfl, by norm_num⟩)

/-- Counterexample to claim C5 as stated: `compute_eitc` does not clamp a
negative child count up to `0`; for a single filer with AGI 10000 the claim
would require the `n = -1` result to equal the `n = 0` result, but the code
gives `0` versus `649`. -/
theorem compute_eitc_negative_children_cex :
    compute_eitc FilingStatus.single 10000 (-1) = 0
    ∧ compute_eitc FilingStatus.single 10000 0 = 649
    ∧ (0:ℚ) ≠ 649 := by
  refine ⟨?_, ?_, by norm_num⟩
  · simp only [compute_eitc, EITC_INCOME_LIMITS_SINGLE, EITC_MAX, List.lookup]
    decide
  · simp only [compute_eitc, EITC_INCOME_LIMITS_SINGLE, EITC_MAX, List.lookup]
    decide

/-- Amended claim C5: the child count is clamped only from above at `3`;
for `n` in `[0,3]` the credit is `0` when AGI exceeds the filing-status and
child-count income limit and the fixed maximum credit otherwise; for
`n < 0` both table lookups default to `0`, so the credit is always `0`
(not the `n = 0` result). -/
theorem compute_eitc_clamp (fs : FilingStatus) (agi : ℚ) (n : ℤ) :
    (3 ≤ n → compute_eitc fs agi n = compute_eitc fs agi 3)
    ∧ (n < 0 → compute_eitc fs agi n = 0)
    ∧ (0 ≤ n → n ≤ 3 →
        compute_eitc fs agi n =
          if ((if fs = FilingStatus.married_joint then EITC_INCOME_LIMITS_JOINT
               else EITC_INCOME_LIMITS_SINGLE).lookup n).getD 0 < agi then 0
          else (EITC_MAX.lookup n).getD 0) := by
  refine ⟨fun h3 => ?_, fun hneg => ?_, fun h0 h3 => ?_⟩
  · simp only [compute_eitc]
    rw [min_eq_right h3, min_self]
  · obtain ⟨hm, hs, hj⟩ := eitc_lookup_neg n hneg
    simp only [compute_eitc]
    rw [min_eq_left (by omega : n ≤ 3)]
    by_cases hfs : fs = FilingStatus.married_joint
    · simp [hfs, hj, hm]
    · simp [hfs, hs, hm]
  · simp only [compute_eitc]
    rw [min_eq_left h3]

/-- Witness for the amended C5: `n = 5` behaves as `n = 3`, and `n = -7`
gives `0`. -/
theorem compute_eitc_clamp_witness :
    compute_eitc FilingStatus.single 10000 5 = compute_eitc FilingStatus.single 10000 3
    ∧ compute_eitc FilingStatus.single 20000 (-7) = 0 :=
  ⟨(compute_eitc_clamp FilingStatus.single 10000 5).1 (by norm_num),
   (compute_eitc_clamp FilingStatus.single 20000 (-7)).2.1 (by norm_num)⟩

/-- Claim C7: on a schedule with ascending bounds and rates within `[0,R]`
(for a non-decreasing rate schedule, `R` is the top rate),
`compute_bracket_tax` is monotone non-decreasing in the income, and is
Lipschitz with constant `R` — the formal counterpart of piecewise-linear
continuity with no jump at any bracket boundary. -/
theorem compute_bracket_tax_monotone (brackets : List Bracket) (R x y : ℚ)
    (hxy : x ≤ y) (hR : 0 ≤ R)
    (hlow : ∀ p ∈ brackets, 0 ≤ p.2) (hhigh : ∀ p ∈ brackets, p.2 ≤ R)
    (hasc : BoundsAscFrom 0 brackets) :
    compute_bracket_tax x brackets ≤ compute_bracket_tax y brackets
    ∧ compute_bracket_tax y brackets - compute_bracket_tax x brackets
        ≤ R * (y - x) :=
  ⟨bracketTaxGo_mono x y hxy brackets 0 0 hasc hlow,
   bracketTaxGo_lipschitz R x y hxy hR brackets 0 0 hasc hhigh⟩

/-- Witness for C7 on the single-filer federal schedule with top rate
`0.37`, at incomes 30000 and 50000. -/
theorem compute_bracket_tax_monotone_witness :
    compute_bracket_tax 30000 (FEDERAL_BRACKETS FilingStatus.single)
      ≤ compute_bracket_tax 50000 (FEDERAL_BRACKETS FilingStatus.single)
    ∧ compute_bracket_tax 50000 (FEDERAL_BRACKETS FilingStatus.single)
        - compute_bracket_tax 30000 (FEDERAL_BRACKETS FilingStatus.single)
        ≤ 0.37 * (50000 - 30000) :=
  compute_bracket_tax_monotone (FEDERAL_BRACKETS FilingStatus.single) 0.37
    30000 50000 (by norm_num) (by norm_num)
    (by
      intro p hp
      simp only [FEDERAL_BRACKETS, List.mem_cons, List.not_mem_nil, or_false] at hp
      rcases hp with rfl | rfl | rfl | rfl | rfl | rfl | rfl <;> norm_num)
    (by
      intro p hp
      simp only [FEDERAL_BRACKETS, List.mem_cons, List.not_mem_nil, or_false] at hp
      rcases hp with rfl | rfl | rfl | rfl | rfl | rfl | rfl <;> norm_num)
    (by simp only [FEDERAL_BRACKETS, BoundsAscFrom]; norm_num)

/-- Claim C8: on a schedule ending in an open top bracket,
`get_marginal_rate` returns the rate of the first bracket whose upper
bound is absent or at least the income (the bound is inclusive, which the
predicate's `income ≤ b` makes explicit), and when the income is above
every finite bound it returns the open top bracket's rate. -/
theorem get_marginal_rate_first (front : List Bracket) (rTop income : ℚ) :
    get_marginal_rate income (front ++ [(none, rTop)])
      = ((front.find? (marginalPred income)).map Prod.snd).getD rTop
    ∧ ((∀ p ∈ front, ∃ b, p.1 = some b ∧ b < income) →
        get_marginal_rate income (front ++ [(none, rTop)]) = rTop) := by
  have hgo := marginalRateGo_append_open income rTop front
  constructor
  · simp only [get_marginal_rate, hgo]
  · intro hall
    have hnone : front.find? (marginalPred income) = none := by
      rw [List.find?_eq_none]
      intro p hp
      obtain ⟨b, hob, hblt⟩ := hall p hp
      simp [marginalPred, hob, Option.all, not_le.mpr hblt]
    simp only [get_marginal_rate, hgo, hnone, Option.map_none', Option.getD_none]

/-- Witness for C8 on the single-filer federal schedule: income exactly at
the 48475 bound gets that bracket's rate `0.12` (inclusive bound), and
income 700000, above all finite bounds, gets the top rate `0.37`. -/
theorem get_marginal_rate_first_witness :
    get_marginal_rate 48475 (FEDERAL_BRACKETS FilingStatus.single) = 0.12
    ∧ get_marginal_rate 700000 (FEDERAL_BRACKETS FilingStatus.single) = 0.37 := by
  constructor
  · have h := (get_marginal_rate_first
      [(some 11925, 0.10), (some 48475, 0.12), (some 103350, 0.22),
       (some 197300, 0.24), (some 250525, 0.32), (some 626350, 0.35)]
      0.37 48475).1
    rw [show FEDERAL_BRACKETS FilingStatus.single
          = [(some 11925, 0.10), (some 48475, 0.12), (some 103350, 0.22),
             (some 197300, 0.24), (some 250525, 0.32), (some 626350, 0.35)]
            ++ [(none, 0.37)] from rfl, h]
    norm_num [List.find?, marginalPred, Option.all]
  · have h := (get_marginal_rate_first
      [(some 11925, 0.10), (some 48475, 0.12), (some 103350, 0.22),
       (some 197300, 0.24), (some 250525, 0.32), (some 626350, 0.35)]
      0.37 700000).2
      (by
        intro p hp
        simp only [List.mem_cons, List.not_mem_nil, or_false] at hp
        rcases hp with rfl | rfl | rfl | rfl | rfl | rfl
        · exact ⟨11925, rfl, by norm_num⟩
        · exact ⟨48475, rfl, by norm_num⟩
        · exact ⟨103350, rfl, by norm_num⟩
        · exact ⟨197300, rfl, by norm_num⟩
        · exact ⟨250525, rfl, by norm_num⟩
        · exact ⟨626350, rfl, by norm_num⟩)
    rw [show FEDERAL_BRACKETS FilingStatus.single
          = [(some 11925, 0.10), (some 48475, 0.12), (some 103350, 0.22),
             (some 197300, 0.24), (some 250525, 0.32), (some 626350, 0.35)]
            ++ [(none, 0.37)] from rfl, h]

/-- Claim C9: `compute_state_tax` is total on every state code: it returns
`0` for codes in the fixed no-income-tax set, income times the listed flat
rate for codes in the rate table, and income times the default rate `0.05`
for any unlisted code. -/
theorem compute_state_tax_total_fun (taxable_income : ℚ) (state : String) :
    (state ∈ NO_INCOME_TAX_STATES →
      compute_state_tax taxable_income state = 0)
    ∧ (state ∉ NO_INCOME_TAX_STATES →
      compute_state_tax taxable_income state
        = taxable_income * ((STATE_TAX_RATES.lookup state).getD 0.05))
    ∧ (state ∉ NO_INCOME_TAX_STATES → STATE_TAX_RATES.lookup state = none →
      compute_state_tax taxable_income state = taxable_income * 0.05) := by
  refine ⟨fun h => ?_, fun h => ?_, fun h hn => ?_⟩
  · simp [compute_state_tax, h]
  · simp [compute_state_tax, h]
  · simp [compute_state_tax, h, hn]

/-- Witness for C9: Texas (no-income-tax set) gives `0`; California gives
`100000 * 0.133 = 13300`; the unlisted code ZZ gives the default
`100000 * 0.05 = 5000`. -/
theorem compute_state_tax_total_fun_witness :
    compute_state_tax 100000 stateTX = 0
    ∧ compute_state_tax 100000 stateCA = 13300
    ∧ compute_state_tax 100000 stateZZ = 5000 := by
  refine ⟨(compute_state_tax_total_fun 100000 stateTX).1 (by decide), ?_, ?_⟩
  · rw [(compute_state_tax_total_fun 100000 stateCA).2.1 (by decide),
      show STATE_TAX_RATES.lookup stateCA = some 0.133 from rfl]
    norm_num
  · rw [(compute_state_tax_total_fun 100000 stateZZ).2.2 (by decide) rfl]
    norm_num

/-- Counterexample to claim C2 as stated: with a caller-supplied
`use_itemized = true` flag, 200000 of wages and 5000 of itemized state tax,
the standard deduction is selected (5000 ≤ 15000, `deduction_type` is the
standard label) yet the never-reset flag makes the AMT tentative use a 5000
SALT add-back: 30394 instead of `compute_amt agi single 0 = 29094`. -/
theorem amt_salt_addback_flag_cex :
    (calculate_taxes highWageIncome saltOnlyDeductionsFlagged).1.itemized_deduction
      ≤ (calculate_taxes highWageIncome saltOnlyDeductionsFlagged).1.standard_deduction
    ∧ (calculate_taxes highWageIncome saltOnlyDeductionsFlagged).1.deduction_type
        = standardLabel
    ∧ (calculate_taxes highWageIncome saltOnlyDeductionsFlagged).1.amt_tentative = 30394
    ∧ compute_amt ((calculate_taxes highWageIncome saltOnlyDeductionsFlagged).1.agi)
        FilingStatus.single 0 = 29094
    ∧ (calculate_taxes highWageIncome saltOnlyDeductionsFlagged).1.amt_tentative
        ≠ compute_amt ((calculate_taxes highWageIncome saltOnlyDeductionsFlagged).1.agi)
            FilingStatus.single 0 := by
  have hagi : (calculate_taxes highWageIncome saltOnlyDeductionsFlagged).1.agi = 200000 := by
    rw [calculate_taxes_agi]
    norm_num [highWageIncome, saltOnlyDeductionsFlagged, AllIncome.total_agi_estimate,
      AllIncome.total_ordinary_income, AllIncome.net_short_term_gains,
      AllIncome.net_long_term_gains, AllIncome.total_w2_wages,
      SelfEmploymentIncome.net_income, AboveTheLineDeductions.total]
  have hitem : (calculate_taxes highWageIncome saltOnlyDeductionsFlagged).1.itemized_deduction
      = 5000 := by
    rw [calculate_taxes_item]
    norm_num [highWageIncome, saltOnlyDeductionsFlagged, AllIncome.total_agi_estimate,
      AllIncome.total_ordinary_income, AllIncome.net_short_term_gains,
      AllIncome.net_long_term_gains, AllIncome.total_w2_wages,
      SelfEmploymentIncome.net_income, AboveTheLineDeductions.total,
      ItemizedDeductions.total, SALT_CAP]
  have hstd : (calculate_taxes highWageIncome saltOnlyDeductionsFlagged).1.standard_deduction
      = 15000 := by
    rw [calculate_taxes_std]
    norm_num [saltOnlyDeductionsFlagged, compute_standard_deduction,
      STANDARD_DEDUCTION, ADDITIONAL_STD_DEDUCTION]
  have hamt : (calculate_taxes highWageIncome saltOnlyDeductionsFlagged).1.amt_tentative
      = 30394 := by
    rw [calculate_taxes_amt]
    norm_num [highWageIncome, saltOnlyDeductionsFlagged, AllIncome.total_agi_estimate,
      AllIncome.total_ordinary_income, AllIncome.net_short_term_gains,
      AllIncome.net_long_term_gains, AllIncome.total_w2_wages,
      SelfEmploymentIncome.net_income, AboveTheLineDeductions.total,
      ItemizedDeductions.total, SALT_CAP, compute_standard_deduction,
      STANDARD_DEDUCTION, ADDITIONAL_STD_DEDUCTION, compute_amt,
      AMT_EXEMPTION, AMT_EXEMPTION_PHASEOUT_START, AMT_RATES,
      compute_bracket_tax, bracketTaxGo]
  have hzero : compute_amt 200000 FilingStatus.single 0 = 29094 := by
    norm_num [compute_amt, AMT_EXEMPTION, AMT_EXEMPTION_PHASEOUT_START,
      AMT_RATES, compute_bracket_tax, bracketTaxGo]
  refine ⟨?_, ?_, hamt, ?_, ?_⟩
  · rw [hitem, hstd]; norm_num
  · rw [calculate_taxes_dedtype]
    norm_num [highWageIncome, saltOnlyDeductionsFlagged, AllIncome.total_agi_estimate,
      AllIncome.total_ordinary_income, AllIncome.net_short_term_gains,
      AllIncome.net_long_term_gains, AllIncome.total_w2_wages,
      SelfEmploymentIncome.net_income, AboveTheLineDeductions.total,
      ItemizedDeductions.total, SALT_CAP, compute_standard_deduction,
      STANDARD_DEDUCTION, ADDITIONAL_STD_DEDUCTION]
  · rw [hagi]; exact hzero
  · rw [hamt, hagi, hzero]; norm_num

/-- Amended claim C2: the SALT add-back (capped at 10000) is applied
exactly when the `use_itemized` flag is set after the selection step.  When
the input flag is `false` and the standard deduction is selected, the AMT
tentative is computed with a zero add-back; when the itemized path is
selected the capped add-back is applied.  A caller-supplied `true` flag is
never reset, so with it the add-back is applied even under the standard
deduction (the counterexample); the claim's quantification over every
initial flag value is what fails. -/
theorem amt_salt_addback_selection (i : AllIncome) (d : AllDeductions) :
    (d.use_itemized = false →
      (calculate_taxes i d).1.itemized_deduction
        ≤ (calculate_taxes i d).1.standard_deduction →
      (calculate_taxes i d).1.amt_tentative
        = compute_amt ((calculate_taxes i d).1.agi) d.personal.filing_status 0)
    ∧ ((calculate_taxes i d).1.standard_deduction
          < (calculate_taxes i d).1.itemized_deduction →
      (calculate_taxes i d).1.amt_tentative
        = compute_amt ((calculate_taxes i d).1.agi) d.personal.filing_status
            (min (d.itemized.state_local_income_tax + d.itemized.property_tax)
              10000)) := by
  rw [calculate_taxes_amt, calculate_taxes_item, calculate_taxes_std,
    calculate_taxes_agi]
  constructor
  · intro hflag hle
    rw [if_neg (not_lt.mpr hle), hflag]
    simp
  · intro hlt
    rw [if_pos hlt]
    simp

/-- Witness for the amended C2: same income and itemized SALT as the
counterexample but with the default `false` flag; the AMT tentative equals
the zero-add-back value. -/
theorem amt_salt_addback_selection_witness :
    (calculate_taxes highWageIncome saltOnlyDeductions).1.amt_tentative
      = compute_amt ((calculate_taxes highWageIncome saltOnlyDeductions).1.agi)
          FilingStatus.single 0 :=
  (amt_salt_addback_selection highWageIncome saltOnlyDeductions).1 rfl
    (by
      rw [calculate_taxes_item, calculate_taxes_std]
      norm_num [highWageIncome, saltOnlyDeductions, AllIncome.total_agi_estimate,
        AllIncome.total_ordinary_income, AllIncome.net_short_term_gains,
        AllIncome.net_long_term_gains, AllIncome.total_w2_wages,
        SelfEmploymentIncome.net_income, AboveTheLineDeductions.total,
        ItemizedDeductions.total, SALT_CAP, compute_standard_deduction,
        STANDARD_DEDUCTION, ADDITIONAL_STD_DEDUCTION])

/-- Claim C6: the itemized path is selected exactly when the itemized total
is strictly greater than the standard deduction; on an exact tie the
standard deduction is used and `deduction_used` is the standard amount. -/
theorem deduction_selection_strict (i : AllIncome) (d : AllDeductions) :
    ((calculate_taxes i d).1.deduction_type = itemizedLabel
      ↔ (calculate_taxes i d).1.standard_deduction
          < (calculate_taxes i d).1.itemized_deduction)
    ∧ ((calculate_taxes i d).1.itemized_deduction
          = (calculate_taxes i d).1.standard_deduction →
      (calculate_taxes i d).1.deduction_type = standardLabel
      ∧ (calculate_taxes i d).1.deduction_used
          = (calculate_taxes i d).1.standard_deduction) := by
  rw [calculate_taxes_dedtype, calculate_taxes_dedused, calculate_taxes_std,
    calculate_taxes_item]
  by_cases h : compute_standard_deduction d.personal
      < d.itemized.total (max 0 (i.total_agi_estimate - d.above_the_line.total))
  · rw [if_pos h, if_pos h]
    constructor
    · simp [h]
    · intro heq
      rw [heq] at h
      exact absurd h (lt_irrefl _)
  · rw [if_neg h, if_neg h]
    constructor
    · simp [h, Ne.symm itemizedLabel_ne_standardLabel]
    · exact fun _ => ⟨rfl, rfl⟩

/-- Witness for C6 at an exact tie: an empty income record and 15000 of
cash charity make the itemized total equal the single filer's 15000
standard deduction; the standard path is taken. -/
theorem deduction_selection_strict_witness :
    (calculate_taxes tieIncome tieDeductions).1.deduction_type = standardLabel
    ∧ (calculate_taxes tieIncome tieDeductions).1.deduction_used
        = (calculate_taxes tieIncome tieDeductions).1.standard_deduction :=
  (deduction_selection_strict tieIncome tieDeductions).2
    (by
      rw [calculate_taxes_item, calculate_taxes_std]
      norm_num [tieIncome, tieDeductions, AllIncome.total_agi_estimate,
        AllIncome.total_ordinary_income, AllIncome.net_short_term_gains,
        AllIncome.net_long_term_gains, AllIncome.total_w2_wages,
        SelfEmploymentIncome.net_income, AboveTheLineDeductions.total,
        ItemizedDeductions.total, SALT_CAP, compute_standard_deduction,
        STANDARD_DEDUCTION, ADDITIONAL_STD_DEDUCTION])

/-- Claim C10: `calculate_taxes` writes at most the `use_itemized` field of
its deductions argument, setting it to `true` exactly when the itemized
path is selected and leaving the record untouched otherwise; in particular
it never writes `false`, so a caller-supplied `true` flag persists.  (The
income record has no write anywhere in the source function, which the
embedding reflects by consuming it read-only.) -/
theorem calculate_taxes_frame (i : AllIncome) (d : AllDeductions) :
    (calculate_taxes i d).2
      = if (calculate_taxes i d).1.standard_deduction
            < (calculate_taxes i d).1.itemized_deduction
        then { d with use_itemized := true } else d := by
  rw [calculate_taxes_snd, calculate_taxes_std, calculate_taxes_item]

end TaxApp
